import Mathlib

/-
Verification of the LangChain_CampusX example scripts.

The repository consists of four small scripts:
  - langchain-document-loaders-main/directory_loader.py  (batch ingestion)
  - langchain-document-loaders-main/pdf_loader.py        (single-document ingestion)
  - langchain-prompts-main/temperature.py                (model invocation)
  - langchain-structured-output-main/typeddict_demo.py   (structured record)

All heavy lifting in the scripts is delegated to external SDK collaborators
(PyPDFLoader, DirectoryLoader, ChatOpenAI); their contracts are modelled here
from the specification, and the scripts themselves are embedded faithfully
over those models.
-/

namespace CampusX

/-- One page of a PDF file, as seen by the parsing collaborator: its
extracted text. -/
structure Page where
  content : String
  deriving DecidableEq

/-- A PDF file: a filename together with its ordered list of pages.
Modelled from the spec: the parsing strategy converts one file into zero or
more Document values, one per page. -/
structure PdfFile where
  name : String
  pages : List Page
  deriving DecidableEq

/-- Metadata mapping of a Document.  Modelled from the spec: it includes at
least a source-file identifier and a page index. -/
structure Metadata where
  source : String
  page : Nat
  deriving DecidableEq

/-- A Document: one page of extracted text plus associated metadata,
produced by the parsing collaborator. -/
structure Document where
  page_content : String
  metadata : Metadata
  deriving DecidableEq

/-- The metadata the parsing collaborator records for page index i of a
file. -/
def pageMetadata (f : PdfFile) (i : Nat) : Metadata :=
  { source := f.name, page := i }

/-- Helper for the parsing collaborator: parse the pages of a file named n,
starting at page index i, into Documents. -/
def parseFrom (n : String) (i : Nat) : List Page → List Document
  | [] => []
  | p :: ps => { page_content := p.content, metadata := { source := n, page := i } } :: parseFrom n (i + 1) ps

/-- Modelled from the spec: the PDF-parsing collaborator, parse_file
(PyPDFLoader.load): eagerly parse one file into a fully materialized ordered
sequence of Document values, one per page, index 0 being the first page. -/
def parse_file (f : PdfFile) : List Document :=
  parseFrom f.name 0 f.pages

theorem parseFrom_length (n : String) (ps : List Page) (i : Nat) :
    (parseFrom n i ps).length = ps.length := by
  induction ps generalizing i with
  | nil => rfl
  | cons p ps ih => simp [parseFrom, ih]

theorem parseFrom_getElem? (n : String) (ps : List Page) (i k : Nat) :
    (parseFrom n i ps)[k]? =
      ps[k]?.map fun p => { page_content := p.content, metadata := { source := n, page := i + k } } := by
  induction ps generalizing i k with
  | nil => simp [parseFrom]
  | cons p ps ih =>
    cases k with
    | zero => simp [parseFrom]
    | succ k =>
      simp only [parseFrom, List.getElem?_cons_succ, ih (i + 1) k]
      have : i + 1 + k = i + (k + 1) := by omega
      rw [this]

theorem parse_file_length (f : PdfFile) :
    (parse_file f).length = f.pages.length :=
  parseFrom_length f.name f.pages 0

theorem parse_file_getElem? (f : PdfFile) (k : Nat) :
    (parse_file f)[k]? =
      f.pages[k]?.map fun p => { page_content := p.content, metadata := pageMetadata f k } := by
  have h := parseFrom_getElem? f.name f.pages 0 k
  simpa [parse_file, pageMetadata] using h

/-- Modelled from the spec: the glob filter pattern of a DirectoryLoader is a
shell-style wildcard restricting which filenames are considered; it is
embedded as a predicate on filenames. -/
def globFilter (glob : String → Bool) (files : List PdfFile) : List PdfFile :=
  files.filter fun f => glob f.name

/-- The pattern star-dot-pdf used by directory_loader.py: it matches exactly
the filenames ending in the extension .pdf (the leading star matches any
prefix of the filename, the empty one included). -/
def pdfGlob (n : String) : Bool :=
  ".pdf".data.isSuffixOf n.data

/-- Total number of pages over a list of PDF files. -/
def totalPages (files : List PdfFile) : Nat :=
  (files.map fun f => f.pages.length).sum

/-- Modelled from the spec: DirectoryLoader.lazy_load produces a sequence of
Document values, one per page of every file in the directory matching the
glob pattern, using the per-file parsing strategy.  The full sequence it
produces is the concatenation of the per-file parses of the matched files;
its on-demand production is modelled separately by consumePages. -/
def lazy_load (glob : String → Bool) (files : List PdfFile) : List Document :=
  (globFilter glob files).flatMap parse_file

/-- Modelled from the spec: consuming the first k elements of the lazily
produced sequence over the given (already glob-matched) files.  Returns the
documents produced together with the number of page-parsing calls performed
on the test double: a file is only opened when an element of it is demanded,
and only the demanded pages of the last opened file are parsed. -/
def consumePages : List PdfFile → Nat → List Document × Nat
  | _, 0 => ([], 0)
  | [], _ + 1 => ([], 0)
  | f :: fs, k + 1 =>
    if k + 1 ≤ f.pages.length then
      ((parse_file f).take (k + 1), k + 1)
    else
      let r := consumePages fs (k + 1 - f.pages.length)
      (parse_file f ++ r.1, f.pages.length + r.2)

theorem consumePages_count (files : List PdfFile) (k : Nat) :
    (consumePages files k).2 = min k (totalPages files) := by
  induction files generalizing k with
  | nil =>
    cases k with
    | zero => simp [consumePages, totalPages]
    | succ k => simp [consumePages, totalPages]
  | cons f fs ih =>
    cases k with
    | zero => simp [consumePages]
    | succ k =>
      by_cases h : k + 1 ≤ f.pages.length
      · simp only [consumePages, if_pos h, totalPages, List.map_cons, List.sum_cons]
        have : k + 1 ≤ f.pages.length + (fs.map fun g => g.pages.length).sum := by omega
        omega
      · simp only [consumePages, if_neg h, totalPages, List.map_cons, List.sum_cons]
        have hrec := ih (k + 1 - f.pages.length)
        simp only [totalPages] at hrec
        omega

theorem consumePages_take (files : List PdfFile) (k : Nat) :
    (consumePages files k).1 = (files.flatMap parse_file).take k := by
  induction files generalizing k with
  | nil =>
    cases k with
    | zero => simp [consumePages]
    | succ k => simp [consumePages]
  | cons f fs ih =>
    cases k with
    | zero => simp [consumePages]
    | succ k =>
      by_cases h : k + 1 ≤ f.pages.length
      · simp only [consumePages, if_pos h, List.flatMap_cons,
          List.take_append_eq_append_take]
        have hl : k + 1 - (parse_file f).length = 0 := by
          rw [parse_file_length]; omega
        simp [hl]
      · simp only [consumePages, if_neg h, List.flatMap_cons,
          List.take_append_eq_append_take]
        have hl : (parse_file f).length ≤ k + 1 := by
          rw [parse_file_length]; omega
        rw [List.take_of_length_le hl, ih, parse_file_length]

/-- The printing loop of directory_loader.py: for each document of the
sequence, in order, print its metadata mapping to standard output.  The
accumulator is the list of printouts made so far. -/
def printLoop : List Document → List Metadata → List Metadata
  | [], out => out
  | d :: ds, out => printLoop ds (out ++ [d.metadata])

theorem printLoop_eq (ds : List Document) (out : List Metadata) :
    printLoop ds out = out ++ ds.map Document.metadata := by
  induction ds generalizing out with
  | nil => simp [printLoop]
  | cons d ds ih => simp [printLoop, ih]

/-- The directory_loader.py script: build a DirectoryLoader over the books
directory with the star-dot-pdf glob and the PDF parsing strategy, lazily
load it, and print each produced document on standard output.  The result is
the list of printouts, in order.  The contents of the books directory are
abstracted as the parameter. -/
def directory_loader_main (books : List PdfFile) : List Metadata :=
  printLoop (lazy_load pdfGlob books) []

/-- A value printed to standard output by pdf_loader.py: the page count, the
text content of a page, or the metadata of a page. -/
inductive Printed where
  | count (n : Nat)
  | content (s : String)
  | metadataOf (m : Metadata)
  deriving DecidableEq

/-- An uncaught runtime failure of a script: here, an index-out-of-range
condition at the given index. -/
inductive PyError where
  | indexOutOfRange (idx : Nat)
  deriving DecidableEq

/-- The pdf_loader.py script over an abstract input file: eagerly load the
file with PyPDFLoader, then print, in order, the count of pages, the text
content of page 0 and the metadata of page 1.  The result is the list of
printouts made before the script finished or died, together with the
uncaught failure if one occurred. -/
def pdf_loader_main (f : PdfFile) : List Printed × Option PyError :=
  let docs := parse_file f
  let out := [Printed.count docs.length]
  match docs[0]? with
  | none => (out, some (PyError.indexOutOfRange 0))
  | some d0 =>
    let out := out ++ [Printed.content d0.page_content]
    match docs[1]? with
    | none => (out, some (PyError.indexOutOfRange 1))
    | some d1 => (out ++ [Printed.metadataOf d1.metadata], none)

/-- A runtime value of the dynamic host language: a text or an integer. -/
inductive PyValue where
  | str (s : String)
  | int (n : Int)
  deriving DecidableEq

/-- The Person TypedDict of typeddict_demo.py.  At runtime a TypedDict is a
plain dictionary from string keys to values; the declared field types
(name as text, age as integer) are shape hints carried by the class
declaration, not by the value. -/
def Person : Type := List (String × PyValue)

instance : DecidableEq Person := by
  unfold Person
  infer_instance

/-- Constructing a Person value is plain dictionary construction.  It is
modelled in a result type so that the absence of any error condition is a
statable property: no runtime validation is performed, so construction
always succeeds, whatever value is supplied for each field. -/
def mkPerson (nameVal ageVal : PyValue) : Except String Person :=
  Except.ok [("name", nameVal), ("age", ageVal)]

/-- The declared shape of Person, as a runtime check a validating consumer
would perform: the name field holds a text and the age field holds an
integer.  The script itself never runs this check. -/
def conformsToPersonShape (p : Person) : Bool :=
  (match List.lookup "name" p with
   | some (PyValue.str _) => true
   | _ => false) &&
  (match List.lookup "age" p with
   | some (PyValue.int _) => true
   | _ => false)

/-- The value new_person constructed by typeddict_demo.py: name nitish and a
textual age 35, despite the integer shape hint on the age field. -/
def new_person : Except String Person :=
  mkPerson (PyValue.str "nitish") (PyValue.str "35")

/-- Configuration of the chat-completion client, as built by ChatOpenAI. -/
structure Client where
  model : String
  temperature : ℚ
  deriving DecidableEq

/-- Failure modes of Model Invocation distinguished by the spec: an invalid
configuration parameter, or a remote failure. -/
inductive InvokeError where
  | configError
  | remoteError
  deriving DecidableEq

/-- An observable side effect of Model Invocation: a network call to the
remote model-serving endpoint. -/
inductive Event where
  | networkCall
  deriving DecidableEq

/-- Modelled from the spec: the chat-completion collaborator's configure
step (the ChatOpenAI constructor).  The valid range declared for the
temperature parameter is 0 to 2 inclusive; a value outside it is rejected
as a configuration error. -/
def ChatOpenAI (model : String) (temperature : ℚ) : Except InvokeError Client :=
  if temperature < 0 ∨ 2 < temperature then Except.error InvokeError.configError
  else Except.ok { model := model, temperature := temperature }

/-- A model collaborator (test double): given the configured temperature,
the prompt and a run index, it produces the textual response of that run.
A stochastic double may use the run index; a deterministic one ignores it. -/
def Collaborator : Type := ℚ → String → Nat → String

/-- Model Invocation as performed by temperature.py: configure a client with
the given model identifier and temperature, then submit one prompt
synchronously and retrieve the response.  Returns the trace of network-call
events together with the outcome; a configuration failure produces an empty
trace, since it occurs before any network call is attempted. -/
def model_invocation (model : String) (temperature : ℚ) (prompt : String)
    (collab : Collaborator) (run : Nat) : List Event × Except InvokeError String :=
  match ChatOpenAI model temperature with
  | Except.error e => ([], Except.error e)
  | Except.ok c => ([Event.networkCall], Except.ok (collab c.temperature prompt run))

/-- The temperature.py script: invoke the gpt-4 model at temperature 1.5
with a fixed prompt and print the textual response. -/
def temperature_main (collab : Collaborator) (run : Nat) :
    List Event × Except InvokeError String :=
  model_invocation "gpt-4" (3 / 2) "Write a 5 line poem on cricket" collab run

/-- A sample two-page PDF file used to instantiate the theorems about
Single-Document Ingestion at a concrete input. -/
def samplePdf : PdfFile :=
  { name := "dl-curriculum.pdf",
    pages := [{ content := "page one text" }, { content := "page two text" }] }

/-- C1: for every directory contents and glob pattern, the sequence produced
by Batch Document Ingestion yields exactly P Document values, where P is the
total page count of the files matching the pattern: one Document per page of
every matched file. -/
theorem lazy_load_yields_one_doc_per_page (files : List PdfFile) (glob : String → Bool) :
    (lazy_load glob files).length = totalPages (globFilter glob files) ∧
    ∀ f ∈ globFilter glob files, (parse_file f).length = f.pages.length := by
  refine ⟨?_, fun f _ => parse_file_length f⟩
  simp only [lazy_load, totalPages, List.length_flatMap]
  simp [Function.comp_def, parse_file_length]

/-- C2: Batch Document Ingestion is lazy: consuming the first K elements of
the produced sequence performs exactly min K P page-parsing calls, never
more than K, so pages beyond those needed for the first K elements are never
parsed; and the documents so produced are precisely the first K of the full
sequence. -/
theorem lazy_load_is_lazy (files : List PdfFile) (glob : String → Bool) (K : Nat) :
    (consumePages (globFilter glob files) K).2 = min K (totalPages (globFilter glob files)) ∧
    (consumePages (globFilter glob files) K).2 ≤ K ∧
    (consumePages (globFilter glob files) K).1 = (lazy_load glob files).take K := by
  refine ⟨consumePages_count _ _, ?_, consumePages_take _ _⟩
  rw [consumePages_count]
  omega

/-- C9: the directory_loader.py script prints, to standard output, exactly
one printout per Document produced by Batch Document Ingestion, and the
printout at each position is the metadata mapping of the Document at that
position. -/
theorem directory_loader_prints_each_metadata (books : List PdfFile) :
    (directory_loader_main books).length = (lazy_load pdfGlob books).length ∧
    ∀ i : Nat, (directory_loader_main books)[i]? =
      ((lazy_load pdfGlob books)[i]?).map Document.metadata := by
  constructor
  · simp [directory_loader_main, printLoop_eq]
  · intro i
    simp [directory_loader_main, printLoop_eq]

/-- C3: given a PDF file with at least 2 pages, Single-Document Ingestion
eagerly produces a fully materialized ordered sequence of Documents, one per
page with index 0 the first page, and then prints, in order: the count of
pages, the text content of page 0, and the metadata of page 1, finishing
without error. -/
theorem pdf_loader_eager_and_prints (f : PdfFile) (h : 2 ≤ f.pages.length) :
    (parse_file f).length = f.pages.length ∧
    (∀ i : Nat, (parse_file f)[i]? = f.pages[i]?.map fun p =>
      { page_content := p.content, metadata := pageMetadata f i }) ∧
    ∃ p0 : Page, f.pages[0]? = some p0 ∧
      pdf_loader_main f =
        ([Printed.count f.pages.length, Printed.content p0.content,
          Printed.metadataOf (pageMetadata f 1)], none) := by
  obtain ⟨n, pages⟩ := f
  cases pages with
  | nil => simp at h
  | cons p0 tl =>
    cases tl with
    | nil => simp at h
    | cons p1 rest =>
      refine ⟨parse_file_length _, fun i => parse_file_getElem? _ i, p0, rfl, ?_⟩
      simp [pdf_loader_main, parse_file, parseFrom, pageMetadata, parseFrom_length]

/-- Witness for C3 at a concrete two-page file. -/
theorem pdf_loader_eager_and_prints_witness :
    (parse_file samplePdf).length = samplePdf.pages.length ∧
    (∀ i : Nat, (parse_file samplePdf)[i]? = samplePdf.pages[i]?.map fun p =>
      { page_content := p.content, metadata := pageMetadata samplePdf i }) ∧
    ∃ p0 : Page, samplePdf.pages[0]? = some p0 ∧
      pdf_loader_main samplePdf =
        ([Printed.count samplePdf.pages.length, Printed.content p0.content,
          Printed.metadataOf (pageMetadata samplePdf 1)], none) :=
  pdf_loader_eager_and_prints samplePdf (by decide)

/-- C4 counterexample: a zero-page PDF file has fewer than 2 pages, yet
Single-Document Ingestion dies at the earlier page-0 access, so the page-1
access is never attempted: the recorded out-of-range index is 0, not 1. -/
theorem pdf_loader_page1_claim_counterexample :
    ({ name := "empty.pdf", pages := [] } : PdfFile).pages.length < 2 ∧
    (pdf_loader_main { name := "empty.pdf", pages := [] }).2
      = some (PyError.indexOutOfRange 0) ∧
    (pdf_loader_main { name := "empty.pdf", pages := [] }).2
      ≠ some (PyError.indexOutOfRange 1) := by
  refine ⟨by decide, rfl, by decide⟩

/-- C4 amended: Single-Document Ingestion fails with an index-out-of-range
condition exactly when the file has fewer than 2 pages; the failing access
is the page-1 access when exactly one page exists, but the earlier page-0
access when the file has zero pages, and for every file with at least 2
pages both accesses succeed and no failure occurs. -/
theorem pdf_loader_oob_characterization (f : PdfFile) :
    (pdf_loader_main f).2 =
      (if f.pages.length = 0 then some (PyError.indexOutOfRange 0)
       else if f.pages.length = 1 then some (PyError.indexOutOfRange 1)
       else none) := by
  obtain ⟨n, pages⟩ := f
  cases pages with
  | nil => rfl
  | cons p0 tl =>
    cases tl with
    | nil => rfl
    | cons p1 rest => simp [pdf_loader_main, parse_file, parseFrom]

/-- C8: Single-Document Ingestion on a fixed file with at least 2 pages is
stable across repeated invocations (re-running yields an equal sequence),
its length equals the page count of the file, and the metadata of the
element at index 1 is the metadata the source file records for its second
page. -/
theorem load_stable_length_and_metadata (f : PdfFile) (h : 2 ≤ f.pages.length) :
    parse_file f = parse_file f ∧
    (parse_file f).length = f.pages.length ∧
    ((parse_file f)[1]?).map Document.metadata = some (pageMetadata f 1) := by
  refine ⟨rfl, parse_file_length f, ?_⟩
  have h1 : 1 < f.pages.length := by omega
  rw [parse_file_getElem?, List.getElem?_eq_getElem h1]
  simp

/-- Witness for C8 at a concrete two-page file. -/
theorem load_stable_length_and_metadata_witness :
    parse_file samplePdf = parse_file samplePdf ∧
    (parse_file samplePdf).length = samplePdf.pages.length ∧
    ((parse_file samplePdf)[1]?).map Document.metadata = some (pageMetadata samplePdf 1) :=
  load_stable_length_and_metadata samplePdf (by decide)

/-- C5: constructing the Person record with a textual value in the
integer-typed age field succeeds for every such value: construction is plain
dictionary construction, no runtime validation runs (the constructed value
does not even conform to the declared shape, yet construction returns it
successfully), and no error condition is possible in the script. -/
theorem person_construction_never_validates (s : String) :
    mkPerson (PyValue.str "nitish") (PyValue.str s)
      = Except.ok [("name", PyValue.str "nitish"), ("age", PyValue.str s)] ∧
    conformsToPersonShape [("name", PyValue.str "nitish"), ("age", PyValue.str s)] = false := by
  exact ⟨rfl, rfl⟩

/-- C10: printing the constructed Person value preserves the assigned values
exactly: the printed mapping holds the name nitish and the textual value 35
for the age field, and that textual value is distinct from the integer 35,
so no coercion occurred despite the integer shape hint. -/
theorem new_person_values_preserved :
    new_person = Except.ok [("name", PyValue.str "nitish"), ("age", PyValue.str "35")] ∧
    (List.lookup "age" [("name", PyValue.str "nitish"), ("age", PyValue.str "35")]
      = some (PyValue.str "35")) ∧
    PyValue.str "35" ≠ PyValue.int 35 := by
  refine ⟨rfl, rfl, by decide⟩

/-- C6: for every temperature value outside the accepted range from 0 to 2,
Model Invocation fails with a configuration error, and its event trace holds
no network call: the failure occurs before any network call is attempted. -/
theorem out_of_range_temperature_fails_before_network (model prompt : String) (t : ℚ)
    (collab : Collaborator) (run : Nat) (h : t < 0 ∨ 2 < t) :
    model_invocation model t prompt collab run
      = ([], Except.error InvokeError.configError) ∧
    Event.networkCall ∉ (model_invocation model t prompt collab run).1 := by
  have hc : ChatOpenAI model t = Except.error InvokeError.configError := by
    unfold ChatOpenAI
    rw [if_pos h]
  constructor <;> simp [model_invocation, hc]

/-- Witness for C6 at the concrete out-of-range temperature 3. -/
theorem out_of_range_temperature_fails_before_network_witness :
    model_invocation "gpt-4" 3 "Write a 5 line poem on cricket" (fun _ _ _ => "") 0
      = ([], Except.error InvokeError.configError) ∧
    Event.networkCall ∉
      (model_invocation "gpt-4" 3 "Write a 5 line poem on cricket" (fun _ _ _ => "") 0).1 :=
  out_of_range_temperature_fails_before_network "gpt-4" "Write a 5 line poem on cricket" 3
    (fun _ _ _ => "") 0 (by decide)

/-- C7: Model Invocation at temperature 0 against a deterministic model
collaborator (one whose response at temperature 0 does not depend on the run
index) yields identical results when invoked twice with an identical
prompt. -/
theorem zero_temperature_two_runs_identical (model prompt : String) (collab : Collaborator)
    (h : ∀ p i j, collab 0 p i = collab 0 p j) (r1 r2 : Nat) :
    model_invocation model 0 prompt collab r1 = model_invocation model 0 prompt collab r2 := by
  have hc : ChatOpenAI model 0 = Except.ok { model := model, temperature := 0 } := by
    unfold ChatOpenAI
    rw [if_neg]
    simp
  simp [model_invocation, hc, h prompt r1 r2]

/-- Witness for C7 at a concrete deterministic collaborator and two runs. -/
theorem zero_temperature_two_runs_identical_witness :
    model_invocation "gpt-4" 0 "Write a 5 line poem on cricket" (fun _ p _ => p) 0
      = model_invocation "gpt-4" 0 "Write a 5 line poem on cricket" (fun _ p _ => p) 1 :=
  zero_temperature_two_runs_identical "gpt-4" "Write a 5 line poem on cricket"
    (fun _ p _ => p) (fun _ _ _ => rfl) 0 1

end CampusX
